import Mathlib

/-!
Verification development for the jumbo goal-tracking core: the goal
aggregate state machine, its event-sourced persistence model, and the
claim/lease concurrency policy gating every mutating operation.

Conventions of the embedding:
* ISO-8601 timestamp strings are modelled by their epoch-millisecond
  value (an integer); the source compares timestamps by converting both
  sides with new Date, which compares exactly these values.
* The claim store interface IGoalClaimStore is modelled as an
  association list keyed by goalId, mirroring the Record keyed map the
  file-based implementation persists.
* Methods that mutate the store are embedded in state-passing style:
  they take the store state and return the store state after the call.
  Methods that only read return the store unchanged.
-/

set_option autoImplicit false

namespace Jumbo

/-- Epoch-millisecond value of an ISO-8601 timestamp string. -/
abbrev Timestamp := Int

/-- GoalClaim, a lease on a goal, from GoalClaim.ts: goalId, claimedBy
(worker identity), claimedAt and claimExpiresAt timestamps. -/
structure GoalClaim where
  goalId : String
  claimedBy : String
  claimedAt : Timestamp
  claimExpiresAt : Timestamp
  deriving DecidableEq, Repr

/-- The claims map persisted by the claim store, keyed by goalId. -/
abbrev ClaimMap := List (String × GoalClaim)

/-- Lookup of claims[goalId], returning null when absent. -/
def ClaimMap.get (m : ClaimMap) (goalId : String) : Option GoalClaim :=
  (m.find? (fun p => p.1 == goalId)).map (fun p => p.2)

/-- Keyed-map assignment claims[claim.goalId] = claim: replaces the
entry at an existing key in place, otherwise adds the entry at the end. -/
def ClaimMap.set : ClaimMap → GoalClaim → ClaimMap
  | [], claim => [(claim.goalId, claim)]
  | (k, v) :: rest, claim =>
      if k == claim.goalId then (k, claim) :: rest
      else (k, v) :: ClaimMap.set rest claim

/-- Keyed-map deletion of claims[goalId]. -/
def ClaimMap.remove (m : ClaimMap) (goalId : String) : ClaimMap :=
  m.filter (fun p => ¬ p.1 == goalId)

/-- State of the claims.json file read by FsGoalClaimStore.loadData:
the file may be absent, present but rejected by JSON.parse, or present
with a parsed claims map. -/
inductive ClaimsFile where
  | missing
  | malformed
  | stored (claims : ClaimMap)
  deriving DecidableEq

namespace FsGoalClaimStore

/-- FsGoalClaimStore.loadData: returns the parsed claims map when the
file exists and parses; when the file does not exist, or reading or
parsing throws, returns the empty claims map. -/
def loadData : ClaimsFile → ClaimMap
  | .missing => []
  | .malformed => []
  | .stored claims => claims

/-- FsGoalClaimStore.getClaim: loads the data and returns
claims[goalId] or null. -/
def getClaim (file : ClaimsFile) (goalId : String) : Option GoalClaim :=
  ClaimMap.get (loadData file) goalId

/-- FsGoalClaimStore.setClaim: loads the data, assigns
claims[claim.goalId] = claim, and saves the file. -/
def setClaim (file : ClaimsFile) (claim : GoalClaim) : ClaimsFile :=
  .stored (ClaimMap.set (loadData file) claim)

/-- FsGoalClaimStore.releaseClaim: loads the data, deletes
claims[goalId], and saves the file. -/
def releaseClaim (file : ClaimsFile) (goalId : String) : ClaimsFile :=
  .stored (ClaimMap.remove (loadData file) goalId)

end FsGoalClaimStore

/-- Result of GoalClaimPolicy.canClaim: allowed, or rejected with
reason CLAIMED_BY_ANOTHER_WORKER and the existing claim attached. -/
inductive ClaimValidationResult where
  | allowed
  | rejected (existingClaim : GoalClaim)
  deriving DecidableEq, Repr

namespace GoalClaimPolicy

/-- GoalClaimPolicy.canClaim: no existing claim, allowed; now at or
past the expiry of the existing claim (now >= expiresAt), allowed;
existing claim owned by the requesting worker, allowed; otherwise
rejected with the existing claim. -/
def canClaim (store : ClaimMap) (now : Timestamp) (goalId workerId : String) :
    ClaimValidationResult :=
  match ClaimMap.get store goalId with
  | none => .allowed
  | some existingClaim =>
      if existingClaim.claimExpiresAt ≤ now then .allowed
      else if existingClaim.claimedBy == workerId then .allowed
      else .rejected existingClaim

/-- GoalClaimPolicy.prepareClaim: builds a claim with claimedAt = now
and claimExpiresAt = now + durationMs; performs no store call. -/
def prepareClaim (now : Timestamp) (goalId workerId : String) (durationMs : Int) :
    GoalClaim :=
  { goalId := goalId
    claimedBy := workerId
    claimedAt := now
    claimExpiresAt := now + durationMs }

/-- GoalClaimPolicy.prepareRefreshedClaim: reads the existing claim,
keeps its claimedAt when present (falling back to now), sets
claimExpiresAt = now + durationMs; the only store call is the read, so
the store state after the call is returned unchanged. -/
def prepareRefreshedClaim (store : ClaimMap) (now : Timestamp)
    (goalId workerId : String) (durationMs : Int) : GoalClaim × ClaimMap :=
  let existingClaim := ClaimMap.get store goalId
  ({ goalId := goalId
     claimedBy := workerId
     claimedAt := match existingClaim with
       | some c => c.claimedAt
       | none => now
     claimExpiresAt := now + durationMs },
   store)

/-- GoalClaimPolicy.storeClaim: persists a prepared claim via
setClaim. -/
def storeClaim (store : ClaimMap) (claim : GoalClaim) : ClaimMap :=
  ClaimMap.set store claim

/-- GoalClaimPolicy.createClaim: prepareClaim then setClaim. -/
def createClaim (store : ClaimMap) (now : Timestamp) (goalId workerId : String)
    (durationMs : Int) : GoalClaim × ClaimMap :=
  let claim := prepareClaim now goalId workerId durationMs
  (claim, ClaimMap.set store claim)

/-- GoalClaimPolicy.refreshClaim: prepareRefreshedClaim then
setClaim. -/
def refreshClaim (store : ClaimMap) (now : Timestamp) (goalId workerId : String)
    (durationMs : Int) : GoalClaim × ClaimMap :=
  let prepared := prepareRefreshedClaim store now goalId workerId durationMs
  (prepared.1, ClaimMap.set prepared.2 prepared.1)

/-- GoalClaimPolicy.releaseClaim: removes the claim from the store. -/
def releaseClaim (store : ClaimMap) (goalId : String) : ClaimMap :=
  ClaimMap.remove store goalId

end GoalClaimPolicy

/-- Goal lifecycle statuses from Constants.ts, used by GoalState and
event payloads. -/
inductive GoalStatus where
  | todo
  | doing
  | paused
  | blocked
  | inReview
  | qualified
  | completed
  deriving DecidableEq, Repr, BEq

/-- The string constant behind each status (GoalStatus.TODO = to-do,
GoalStatus.INREVIEW = in-review, and so on), interpolated into error
messages. -/
def GoalStatus.label : GoalStatus → String
  | .todo => "to-do"
  | .doing => "doing"
  | .paused => "paused"
  | .blocked => "blocked"
  | .inReview => "in-review"
  | .qualified => "qualified"
  | .completed => "completed"

/-- Item with title and description, used by the embedded planning
context of a goal (relevant invariants and guidelines). -/
structure TitledItem where
  title : String
  description : String
  deriving DecidableEq, Repr

/-- Dependency entry of the embedded planning context. -/
structure DependencyItem where
  consumer : String
  provider : String
  deriving DecidableEq, Repr

/-- Component entry of the embedded planning context. -/
structure ComponentItem where
  name : String
  responsibility : String
  deriving DecidableEq, Repr

/-- Architecture note of the embedded planning context. -/
structure ArchitectureNote where
  description : String
  organization : String
  deriving DecidableEq, Repr

/-- GoalState from Goal.ts as exercised by its tests: identity,
attribute fields, status, version, optional note, progress, and the
optional embedded planning context captured at creation. -/
structure GoalState where
  id : String
  objective : String
  successCriteria : List String
  scopeIn : List String
  scopeOut : List String
  boundaries : List String
  status : GoalStatus
  version : Nat
  note : Option String := none
  progress : List String := []
  relevantInvariants : Option (List TitledItem) := none
  relevantGuidelines : Option (List TitledItem) := none
  relevantDependencies : Option (List DependencyItem) := none
  relevantComponents : Option (List ComponentItem) := none
  architecture : Option ArchitectureNote := none
  filesToBeCreated : Option (List String) := none
  filesToBeChanged : Option (List String) := none
  deriving DecidableEq, Repr

/-- Payload of GoalAddedEvent: the goal definition plus the optional
embedded planning context fields. -/
structure AddedPayload where
  objective : String
  successCriteria : List String
  scopeIn : List String
  scopeOut : List String
  boundaries : List String
  status : GoalStatus
  relevantInvariants : Option (List TitledItem) := none
  relevantGuidelines : Option (List TitledItem) := none
  relevantDependencies : Option (List DependencyItem) := none
  relevantComponents : Option (List ComponentItem) := none
  architecture : Option ArchitectureNote := none
  filesToBeCreated : Option (List String) := none
  filesToBeChanged : Option (List String) := none
  deriving DecidableEq, Repr

/-- Type tag and payload of each domain event, from the event
interfaces under domain/work/goals: every payload carries the
resulting status; started and resumed embed the optional claim
fields; paused and resumed carry an optional note. -/
inductive GoalEventData where
  | added (payload : AddedPayload)
  | started (status : GoalStatus) (claimedBy : Option String)
      (claimedAt claimExpiresAt : Option Timestamp)
  | paused (status : GoalStatus) (reason : String) (note : Option String)
  | resumed (status : GoalStatus) (note : Option String) (claimedBy : Option String)
      (claimedAt claimExpiresAt : Option Timestamp)
  | submittedForReview (status : GoalStatus) (submittedAt : Timestamp)
  | qualified (status : GoalStatus) (qualifiedAt : Timestamp)
  | completed (status : GoalStatus)
  | reset (status : GoalStatus)
  deriving DecidableEq, Repr

/-- Domain event from BaseEvent.ts: aggregateId, version reached by
applying this event, timestamp, and the typed payload. -/
structure GoalEvent where
  aggregateId : String
  version : Nat
  timestamp : Timestamp
  data : GoalEventData
  deriving DecidableEq, Repr

/-- The empty initial state a goal is rehydrated from: empty
attributes, status to-do, version 0. -/
def GoalState.initial (id : String) : GoalState :=
  { id := id
    objective := ""
    successCriteria := []
    scopeIn := []
    scopeOut := []
    boundaries := []
    status := .todo
    version := 0 }

namespace Goal

/-- Modelled from the spec: Goal.apply of Goal.ts, which is not under
src (only its tests are). Applies one event to the state: the added
event copies the goal definition and embedded context from the
payload; every event sets the status carried in its payload; paused
and resumed set the note from the payload; fields irrelevant to an
event type are left untouched; version increments by exactly 1 per
applied event. -/
def apply (state : GoalState) (event : GoalEvent) : GoalState :=
  match event.data with
  | .added p =>
      { state with
        objective := p.objective
        successCriteria := p.successCriteria
        scopeIn := p.scopeIn
        scopeOut := p.scopeOut
        boundaries := p.boundaries
        status := p.status
        relevantInvariants := p.relevantInvariants
        relevantGuidelines := p.relevantGuidelines
        relevantDependencies := p.relevantDependencies
        relevantComponents := p.relevantComponents
        architecture := p.architecture
        filesToBeCreated := p.filesToBeCreated
        filesToBeChanged := p.filesToBeChanged
        version := state.version + 1 }
  | .started status _ _ _ =>
      { state with status := status, version := state.version + 1 }
  | .paused status _ note =>
      { state with status := status, note := note, version := state.version + 1 }
  | .resumed status note _ _ _ =>
      { state with status := status, note := note, version := state.version + 1 }
  | .submittedForReview status _ =>
      { state with status := status, version := state.version + 1 }
  | .qualified status _ =>
      { state with status := status, version := state.version + 1 }
  | .completed status =>
      { state with status := status, version := state.version + 1 }
  | .reset status =>
      { state with status := status, version := state.version + 1 }

/-- Modelled from the spec: Goal.rehydrate folds apply over the empty
initial state (status to-do, version 0) to reconstruct current state
from the ordered event history. -/
def rehydrate (id : String) (events : List GoalEvent) : GoalState :=
  events.foldl apply (GoalState.initial id)

/-- Applying events one at a time via repeated apply calls, as a live
sequence of transitions does. -/
def applyEach : GoalState → List GoalEvent → GoalState
  | state, [] => state
  | state, e :: rest => applyEach (apply state e) rest

end Goal

/-- Result of a validation rule: a validity flag plus the error
messages, from ValidationRule.ts. -/
structure ValidationResult where
  isValid : Bool
  errors : List String
  deriving DecidableEq, Repr

/-- Error message template CANNOT_SUBMIT_FOR_REVIEW_IN_STATUS with the
status interpolated, as pinned by the rule tests: Cannot submit goal
for review in to-do status, and so on. -/
def cannotSubmitForReviewInStatus (statusLabel : String) : String :=
  "Cannot submit goal for review in " ++ statusLabel ++ " status"

namespace CanSubmitForReviewRule

/-- CanSubmitForReviewRule.validate: valid exactly when the status is
doing or blocked; otherwise one error naming the current status. -/
def validate (state : GoalState) : ValidationResult :=
  let validStatuses : List GoalStatus := [.doing, .blocked]
  let isValid := validStatuses.contains state.status
  { isValid := isValid
    errors :=
      if isValid then []
      else [cannotSubmitForReviewInStatus state.status.label] }

end CanSubmitForReviewRule

/-- The seven lifecycle transitions of the goal aggregate. -/
inductive GoalTransition where
  | start
  | pause
  | resume
  | submitForReview
  | qualify
  | complete
  | reset
  deriving DecidableEq, Repr

/-- Modelled from the spec: the From column of the transition table in
section 4.2 — start from to-do; pause from doing or blocked; resume
from paused; submitForReview from doing or blocked; qualify strictly
from in-review; complete from qualified; reset from any non-terminal
status. -/
def GoalTransition.validFrom : GoalTransition → List GoalStatus
  | .start => [.todo]
  | .pause => [.doing, .blocked]
  | .resume => [.paused]
  | .submitForReview => [.doing, .blocked]
  | .qualify => [.inReview]
  | .complete => [.qualified]
  | .reset => [.todo, .doing, .paused, .blocked, .inReview, .qualified]

/-- Modelled from the spec: the head of each IllegalTransition message
template; the full message is this head, the current status label, and
the word status, matching the template shape the rule tests pin for
submitForReview. -/
def GoalTransition.messageHead : GoalTransition → String
  | .start => "Cannot start goal in "
  | .pause => "Cannot pause goal in "
  | .resume => "Cannot resume goal in "
  | .submitForReview => "Cannot submit goal for review in "
  | .qualify => "Cannot qualify goal in "
  | .complete => "Cannot complete goal in "
  | .reset => "Cannot reset goal in "

/-- Domain error raised by an aggregate transition guard: an illegal
transition naming the actual current status in its message. -/
inductive DomainError where
  | illegalTransition (transition : GoalTransition) (message : String)
  deriving DecidableEq, Repr

namespace Goal

/-- Modelled from the spec: the guard each transition method evaluates
against current in-memory state, raising a domain error naming the
illegal status if violated. The submitForReview guard is the
CanSubmitForReviewRule from the source; the remaining guards follow
the transition table of section 4.2. -/
def guard (t : GoalTransition) (state : GoalState) : Except DomainError Unit :=
  match t with
  | .submitForReview =>
      let result := CanSubmitForReviewRule.validate state
      if result.isValid then .ok ()
      else .error (.illegalTransition .submitForReview
        (cannotSubmitForReviewInStatus state.status.label))
  | t =>
      if t.validFrom.contains state.status then .ok ()
      else .error (.illegalTransition t
        (t.messageHead ++ state.status.label ++ " status"))

/-- Modelled from the spec: goal.start, guarding the transition and
producing the started event carrying the resulting status doing and
the prepared claim data. -/
def start (state : GoalState) (now : Timestamp) (claim : GoalClaim) :
    Except DomainError GoalEvent := do
  _ ← guard .start state
  .ok { aggregateId := state.id
        version := state.version + 1
        timestamp := now
        data := .started .doing (some claim.claimedBy) (some claim.claimedAt)
          (some claim.claimExpiresAt) }

/-- Modelled from the spec: goal.resume, guarding the transition and
producing the resumed event carrying the resulting status doing, the
optional note, and the refreshed claim data. -/
def resume (state : GoalState) (now : Timestamp) (note : Option String)
    (claim : GoalClaim) : Except DomainError GoalEvent := do
  _ ← guard .resume state
  .ok { aggregateId := state.id
        version := state.version + 1
        timestamp := now
        data := .resumed .doing note (some claim.claimedBy) (some claim.claimedAt)
          (some claim.claimExpiresAt) }

/-- Modelled from the spec: goal.complete, guarding the transition and
producing the completed event carrying the resulting status. -/
def complete (state : GoalState) (now : Timestamp) :
    Except DomainError GoalEvent := do
  _ ← guard .complete state
  .ok { aggregateId := state.id
        version := state.version + 1
        timestamp := now
        data := .completed .completed }

/-- Modelled from the spec: goal.reset, guarding the transition and
producing the reset event returning the goal to to-do. -/
def reset (state : GoalState) (now : Timestamp) :
    Except DomainError GoalEvent := do
  _ ← guard .reset state
  .ok { aggregateId := state.id
        version := state.version + 1
        timestamp := now
        data := .reset .todo }

/-- Modelled from the spec: goal.pause, guarding the transition and
producing the paused event carrying the resulting status, the pause
reason, and the optional note. -/
def pause (state : GoalState) (now : Timestamp) (reason : String)
    (note : Option String) : Except DomainError GoalEvent := do
  _ ← guard .pause state
  .ok { aggregateId := state.id
        version := state.version + 1
        timestamp := now
        data := .paused .paused reason note }

/-- Modelled from the spec: goal.submitForReview, guarding the
transition through the CanSubmitForReviewRule and producing the
submitted-for-review event carrying the resulting status in-review
and the submission timestamp. -/
def submitForReview (state : GoalState) (now : Timestamp) :
    Except DomainError GoalEvent := do
  _ ← guard .submitForReview state
  .ok { aggregateId := state.id
        version := state.version + 1
        timestamp := now
        data := .submittedForReview .inReview now }

/-- Modelled from the spec: goal.qualify, guarding the transition
(strictly from in-review) and producing the qualified event carrying
the resulting status and the qualification timestamp. -/
def qualify (state : GoalState) (now : Timestamp) :
    Except DomainError GoalEvent := do
  _ ← guard .qualify state
  .ok { aggregateId := state.id
        version := state.version + 1
        timestamp := now
        data := .qualified .qualified now }

end Goal

/-- Errors thrown by the goal command handlers: goal not found in the
read model, goal claimed by another worker (carrying the competing
claim expiry interpolated into the message), an illegal transition
propagated from the aggregate guard, or an append failure of the
event writer. -/
inductive GoalCommandError where
  | goalNotFound (goalId : String)
  | goalClaimedByAnotherWorker (expiresAt : Timestamp)
  | illegalTransition (transition : GoalTransition) (message : String)
  | eventAppendFailed
  deriving DecidableEq, Repr

/-- Collaborator inputs of one command-handler invocation: whether the
read model has a row for the goal, the event history read from the
event store, the clock value, the resolved worker identity, the claim
duration from settings, and whether the event append succeeds. -/
structure GoalCommandEnv where
  viewExists : Bool
  history : List GoalEvent
  now : Timestamp
  workerId : String
  claimDurationMs : Int
  appendOk : Bool
  deriving DecidableEq, Repr

/-- Observable outcome of one command-handler invocation: the thrown
error or returned goalId, the claim store state afterwards, and the
events published on the bus. -/
structure GoalCommandOutcome where
  result : Except GoalCommandError String
  store : ClaimMap
  published : List GoalEvent
  deriving Repr

/-- StartGoalCommandHandler.execute: existence check against the read
model; canClaim validation; rehydrate from history; prepareClaim;
goal.start producing the event; append; storeClaim only after the
append succeeded; publish last. -/
def StartGoalCommandHandler.execute (env : GoalCommandEnv) (goalId : String)
    (store : ClaimMap) : GoalCommandOutcome :=
  if ¬ env.viewExists then
    { result := .error (.goalNotFound goalId), store := store, published := [] }
  else
    match GoalClaimPolicy.canClaim store env.now goalId env.workerId with
    | .rejected existingClaim =>
        { result := .error (.goalClaimedByAnotherWorker existingClaim.claimExpiresAt)
          store := store
          published := [] }
    | .allowed =>
        let goal := Goal.rehydrate goalId env.history
        let claim := GoalClaimPolicy.prepareClaim env.now goalId env.workerId
          env.claimDurationMs
        match Goal.start goal env.now claim with
        | .error (.illegalTransition t msg) =>
            { result := .error (.illegalTransition t msg), store := store, published := [] }
        | .ok event =>
            if ¬ env.appendOk then
              { result := .error .eventAppendFailed, store := store, published := [] }
            else
              { result := .ok goalId
                store := GoalClaimPolicy.storeClaim store claim
                published := [event] }

/-- ResumeGoalCommandHandler.execute: existence check; canClaim
validation; rehydrate; prepareRefreshedClaim; goal.resume producing
the event; append; storeClaim only after the append succeeded;
publish last. -/
def ResumeGoalCommandHandler.execute (env : GoalCommandEnv) (goalId : String)
    (note : Option String) (store : ClaimMap) : GoalCommandOutcome :=
  if ¬ env.viewExists then
    { result := .error (.goalNotFound goalId), store := store, published := [] }
  else
    match GoalClaimPolicy.canClaim store env.now goalId env.workerId with
    | .rejected existingClaim =>
        { result := .error (.goalClaimedByAnotherWorker existingClaim.claimExpiresAt)
          store := store
          published := [] }
    | .allowed =>
        let goal := Goal.rehydrate goalId env.history
        let prepared := GoalClaimPolicy.prepareRefreshedClaim store env.now goalId
          env.workerId env.claimDurationMs
        match Goal.resume goal env.now note prepared.1 with
        | .error (.illegalTransition t msg) =>
            { result := .error (.illegalTransition t msg)
              store := prepared.2
              published := [] }
        | .ok event =>
            if ¬ env.appendOk then
              { result := .error .eventAppendFailed, store := prepared.2, published := [] }
            else
              { result := .ok goalId
                store := GoalClaimPolicy.storeClaim prepared.2 prepared.1
                published := [event] }

/-- CompleteGoalCommandHandler.execute: existence check; canClaim
validation; rehydrate; goal.complete producing the event; append;
releaseClaim only after the append succeeded; publish last. -/
def CompleteGoalCommandHandler.execute (env : GoalCommandEnv) (goalId : String)
    (store : ClaimMap) : GoalCommandOutcome :=
  if ¬ env.viewExists then
    { result := .error (.goalNotFound goalId), store := store, published := [] }
  else
    match GoalClaimPolicy.canClaim store env.now goalId env.workerId with
    | .rejected existingClaim =>
        { result := .error (.goalClaimedByAnotherWorker existingClaim.claimExpiresAt)
          store := store
          published := [] }
    | .allowed =>
        let goal := Goal.rehydrate goalId env.history
        match Goal.complete goal env.now with
        | .error (.illegalTransition t msg) =>
            { result := .error (.illegalTransition t msg), store := store, published := [] }
        | .ok event =>
            if ¬ env.appendOk then
              { result := .error .eventAppendFailed, store := store, published := [] }
            else
              { result := .ok goalId
                store := GoalClaimPolicy.releaseClaim store goalId
                published := [event] }

/-- ResetGoalCommandHandler.execute: existence check; canClaim
validation; rehydrate; goal.reset producing the event; append;
releaseClaim only after the append succeeded; publish last. -/
def ResetGoalCommandHandler.execute (env : GoalCommandEnv) (goalId : String)
    (store : ClaimMap) : GoalCommandOutcome :=
  if ¬ env.viewExists then
    { result := .error (.goalNotFound goalId), store := store, published := [] }
  else
    match GoalClaimPolicy.canClaim store env.now goalId env.workerId with
    | .rejected existingClaim =>
        { result := .error (.goalClaimedByAnotherWorker existingClaim.claimExpiresAt)
          store := store
          published := [] }
    | .allowed =>
        let goal := Goal.rehydrate goalId env.history
        match Goal.reset goal env.now with
        | .error (.illegalTransition t msg) =>
            { result := .error (.illegalTransition t msg), store := store, published := [] }
        | .ok event =>
            if ¬ env.appendOk then
              { result := .error .eventAppendFailed, store := store, published := [] }
            else
              { result := .ok goalId
                store := GoalClaimPolicy.releaseClaim store goalId
                published := [event] }

/-- Modelled from the spec: PauseGoalCommandHandler.execute, which is
not under src; it follows the identical orchestration skeleton of
section 4.4 shared by all handlers — existence pre-check, canClaim
validation, rehydrate, goal.pause producing the event, append,
publish — with no claim-store mutation, since claims are created by
start, refreshed by resume and released only by complete and reset. -/
def PauseGoalCommandHandler.execute (env : GoalCommandEnv) (goalId : String)
    (reason : String) (note : Option String) (store : ClaimMap) :
    GoalCommandOutcome :=
  if ¬ env.viewExists then
    { result := .error (.goalNotFound goalId), store := store, published := [] }
  else
    match GoalClaimPolicy.canClaim store env.now goalId env.workerId with
    | .rejected existingClaim =>
        { result := .error (.goalClaimedByAnotherWorker existingClaim.claimExpiresAt)
          store := store
          published := [] }
    | .allowed =>
        let goal := Goal.rehydrate goalId env.history
        match Goal.pause goal env.now reason note with
        | .error (.illegalTransition t msg) =>
            { result := .error (.illegalTransition t msg), store := store, published := [] }
        | .ok event =>
            if ¬ env.appendOk then
              { result := .error .eventAppendFailed, store := store, published := [] }
            else
              { result := .ok goalId, store := store, published := [event] }

/-- Modelled from the spec: SubmitGoalForReviewCommandHandler.execute,
which is not under src (only the ReviewGoalController that delegates
to it is); the section 4.4 skeleton with the submitForReview
transition and no claim-store mutation. -/
def SubmitGoalForReviewCommandHandler.execute (env : GoalCommandEnv)
    (goalId : String) (store : ClaimMap) : GoalCommandOutcome :=
  if ¬ env.viewExists then
    { result := .error (.goalNotFound goalId), store := store, published := [] }
  else
    match GoalClaimPolicy.canClaim store env.now goalId env.workerId with
    | .rejected existingClaim =>
        { result := .error (.goalClaimedByAnotherWorker existingClaim.claimExpiresAt)
          store := store
          published := [] }
    | .allowed =>
        let goal := Goal.rehydrate goalId env.history
        match Goal.submitForReview goal env.now with
        | .error (.illegalTransition t msg) =>
            { result := .error (.illegalTransition t msg), store := store, published := [] }
        | .ok event =>
            if ¬ env.appendOk then
              { result := .error .eventAppendFailed, store := store, published := [] }
            else
              { result := .ok goalId, store := store, published := [event] }

/-- Modelled from the spec: QualifyGoalCommandHandler.execute, which
is not under src (only the QualifyGoalController that delegates to it
is); the section 4.4 skeleton with the qualify transition and no
claim-store mutation. -/
def QualifyGoalCommandHandler.execute (env : GoalCommandEnv) (goalId : String)
    (store : ClaimMap) : GoalCommandOutcome :=
  if ¬ env.viewExists then
    { result := .error (.goalNotFound goalId), store := store, published := [] }
  else
    match GoalClaimPolicy.canClaim store env.now goalId env.workerId with
    | .rejected existingClaim =>
        { result := .error (.goalClaimedByAnotherWorker existingClaim.claimExpiresAt)
          store := store
          published := [] }
    | .allowed =>
        let goal := Goal.rehydrate goalId env.history
        match Goal.qualify goal env.now with
        | .error (.illegalTransition t msg) =>
            { result := .error (.illegalTransition t msg), store := store, published := [] }
        | .ok event =>
            if ¬ env.appendOk then
              { result := .error .eventAppendFailed, store := store, published := [] }
            else
              { result := .ok goalId, store := store, published := [event] }

/-- ReviewGoalController.handle: validates claim ownership first via
canClaim (throwing GOAL_CLAIMED_BY_ANOTHER_WORKER with the competing
expiry), then checks existence against the read model, then delegates
the state change to the submit-for-review command handler; after a
successful delegation it re-queries the read model for the response,
a re-read of the same view flag in this embedding, and propagates
every delegate error unchanged. -/
def ReviewGoalController.handle (env : GoalCommandEnv) (goalId : String)
    (store : ClaimMap) : GoalCommandOutcome :=
  match GoalClaimPolicy.canClaim store env.now goalId env.workerId with
  | .rejected existingClaim =>
      { result := .error (.goalClaimedByAnotherWorker existingClaim.claimExpiresAt)
        store := store
        published := [] }
  | .allowed =>
      if ¬ env.viewExists then
        { result := .error (.goalNotFound goalId), store := store, published := [] }
      else
        let outcome := SubmitGoalForReviewCommandHandler.execute env goalId store
        match outcome.result with
        | .error e =>
            { result := .error e, store := outcome.store, published := outcome.published }
        | .ok g =>
            if ¬ env.viewExists then
              { result := .error (.goalNotFound goalId)
                store := outcome.store
                published := outcome.published }
            else
              { result := .ok g, store := outcome.store, published := outcome.published }

/-- QualifyGoalController.handle: validates claim ownership first via
canClaim (throwing GOAL_CLAIMED_BY_ANOTHER_WORKER with the competing
expiry), then checks existence, then validates the view row status is
in-review (throwing CANNOT_QUALIFY_IN_STATUS naming the actual
status), then delegates to the qualify command handler; after a
successful delegation it re-queries the read model for the response,
a re-read of the same view flag in this embedding, and propagates
every delegate error unchanged. -/
def QualifyGoalController.handle (env : GoalCommandEnv) (goalId : String)
    (viewStatus : GoalStatus) (store : ClaimMap) : GoalCommandOutcome :=
  match GoalClaimPolicy.canClaim store env.now goalId env.workerId with
  | .rejected existingClaim =>
      { result := .error (.goalClaimedByAnotherWorker existingClaim.claimExpiresAt)
        store := store
        published := [] }
  | .allowed =>
      if ¬ env.viewExists then
        { result := .error (.goalNotFound goalId), store := store, published := [] }
      else if ¬ (viewStatus == .inReview) then
        { result := .error (.illegalTransition .qualify
            (GoalTransition.messageHead .qualify ++ viewStatus.label ++ " status"))
          store := store
          published := [] }
      else
        let outcome := QualifyGoalCommandHandler.execute env goalId store
        match outcome.result with
        | .error e =>
            { result := .error e, store := outcome.store, published := outcome.published }
        | .ok g =>
            if ¬ env.viewExists then
              { result := .error (.goalNotFound goalId)
                store := outcome.store
                published := outcome.published }
            else
              { result := .ok g, store := outcome.store, published := outcome.published }

/-- One row of the goal_views read-model table: the goal attribute
columns (the JSON-encoded list columns kept as their stored text),
the lifecycle columns, and the denormalized claim columns. -/
structure GoalViewRow where
  goalId : String
  objective : String
  successCriteria : String
  scopeIn : String
  scopeOut : String
  boundaries : String
  status : GoalStatus
  version : Nat
  createdAt : Timestamp
  updatedAt : Timestamp
  progress : String
  note : Option String
  claimedBy : Option String
  claimedAt : Option Timestamp
  claimExpiresAt : Option Timestamp
  nextGoalId : Option String
  deriving DecidableEq, Repr

/-- The goal_views table as the ordered list of its rows. -/
abbrev GoalViewTable := List GoalViewRow

/-- GoalQualifiedEvent as consumed by the projector: base fields plus
the payload status and qualifiedAt. -/
structure GoalQualifiedEvent where
  aggregateId : String
  version : Nat
  timestamp : Timestamp
  status : GoalStatus
  qualifiedAt : Timestamp
  deriving DecidableEq, Repr

/-- SqliteGoalQualifiedProjector.applyGoalQualified: the UPDATE sets
status from the payload, claimedBy, claimedAt and claimExpiresAt to
NULL, version from the event version and updatedAt from the event
timestamp, on exactly the rows whose goalId equals the event
aggregateId. -/
def SqliteGoalQualifiedProjector.applyGoalQualified (table : GoalViewTable)
    (event : GoalQualifiedEvent) : GoalViewTable :=
  table.map fun row =>
    if row.goalId == event.aggregateId then
      { row with
        status := event.status
        claimedBy := none
        claimedAt := none
        claimExpiresAt := none
        version := event.version
        updatedAt := event.timestamp }
    else row

/-! Helper lemmas shared by the claim theorems. -/

/-- Looking up the key of a freshly set claim returns that claim. -/
theorem ClaimMap.get_set (m : ClaimMap) (claim : GoalClaim) :
    ClaimMap.get (ClaimMap.set m claim) claim.goalId = some claim := by
  induction m with
  | nil => simp [ClaimMap.set, ClaimMap.get, List.find?]
  | cons p rest ih =>
      obtain ⟨k, v⟩ := p
      by_cases h : k = claim.goalId
      · simp [ClaimMap.set, ClaimMap.get, List.find?, h]
      · have hb : (k == claim.goalId) = false := beq_eq_false_iff_ne.mpr h
        simp only [ClaimMap.set, hb, Bool.false_eq_true, if_false]
        simpa [ClaimMap.get, List.find?, hb] using ih

/-! Theorems for the claims. -/

/-- C10: FsGoalClaimStore treats a missing or unparseable claims.json
file as an empty claim map rather than an error: getClaim returns
null for every goalId in both cases, so corruption behaves as if all
claims had been released, and setClaim and releaseClaim after
corruption start from the empty map. -/
theorem fsGoalClaimStore_corruption_as_empty (goalId : String) (claim : GoalClaim) :
    FsGoalClaimStore.getClaim .missing goalId = none
    ∧ FsGoalClaimStore.getClaim .malformed goalId = none
    ∧ FsGoalClaimStore.setClaim .missing claim
        = FsGoalClaimStore.setClaim (.stored []) claim
    ∧ FsGoalClaimStore.setClaim .malformed claim
        = FsGoalClaimStore.setClaim (.stored []) claim
    ∧ FsGoalClaimStore.releaseClaim .malformed goalId
        = FsGoalClaimStore.releaseClaim (.stored []) goalId := by
  exact ⟨rfl, rfl, rfl, rfl, rfl⟩

/-- C1: canClaim implements the ordered decision rule — no existing
claim allowed; expiry at or before now allowed; owner equals requester
allowed; otherwise rejected with the existing claim attached — and
claim exclusivity: while A holds a non-expired claim on the goal and
A differs from B, canClaim for B is rejected and canClaim for A is
allowed. -/
theorem canClaim_decision_rule (store : ClaimMap) (now : Timestamp)
    (goalId A B : String) :
    (ClaimMap.get store goalId = none →
      GoalClaimPolicy.canClaim store now goalId B = .allowed)
    ∧ (∀ c, ClaimMap.get store goalId = some c → c.claimExpiresAt ≤ now →
      GoalClaimPolicy.canClaim store now goalId B = .allowed)
    ∧ (∀ c, ClaimMap.get store goalId = some c → now < c.claimExpiresAt →
      c.claimedBy = B → GoalClaimPolicy.canClaim store now goalId B = .allowed)
    ∧ (∀ c, ClaimMap.get store goalId = some c → now < c.claimExpiresAt →
      c.claimedBy ≠ B → GoalClaimPolicy.canClaim store now goalId B = .rejected c)
    ∧ (∀ c, ClaimMap.get store goalId = some c → c.claimedBy = A →
      now < c.claimExpiresAt → A ≠ B →
      GoalClaimPolicy.canClaim store now goalId B = .rejected c
      ∧ GoalClaimPolicy.canClaim store now goalId A = .allowed) := by
  refine ⟨?_, ?_, ?_, ?_, ?_⟩
  · intro h
    simp [GoalClaimPolicy.canClaim, h]
  · intro c hc hexp
    simp [GoalClaimPolicy.canClaim, hc, hexp]
  · intro c hc hnow hb
    simp [GoalClaimPolicy.canClaim, hc, not_le.mpr hnow, hb]
  · intro c hc hnow hb
    simp [GoalClaimPolicy.canClaim, hc, not_le.mpr hnow, hb]
  · intro c hc hA hnow hAB
    constructor
    · simp [GoalClaimPolicy.canClaim, hc, not_le.mpr hnow, hA, hAB]
    · simp [GoalClaimPolicy.canClaim, hc, not_le.mpr hnow, hA]

/-- Witness for C1 at a concrete store: worker-a holds a claim on g1
expiring at 200; at now = 100 worker-b is rejected with that claim
and worker-a is allowed. -/
theorem canClaim_decision_rule_witness :
    GoalClaimPolicy.canClaim
        [("g1", { goalId := "g1", claimedBy := "worker-a", claimedAt := 0,
                  claimExpiresAt := 200 })] 100 "g1" "worker-b"
      = .rejected { goalId := "g1", claimedBy := "worker-a", claimedAt := 0,
                    claimExpiresAt := 200 }
    ∧ GoalClaimPolicy.canClaim
        [("g1", { goalId := "g1", claimedBy := "worker-a", claimedAt := 0,
                  claimExpiresAt := 200 })] 100 "g1" "worker-a"
      = .allowed := by
  have h := canClaim_decision_rule
    [("g1", { goalId := "g1", claimedBy := "worker-a", claimedAt := 0,
              claimExpiresAt := 200 })] 100 "g1" "worker-a" "worker-b"
  exact h.2.2.2.2
    { goalId := "g1", claimedBy := "worker-a", claimedAt := 0, claimExpiresAt := 200 }
    (by decide) rfl (by decide) (by decide)

/-- C6: prepareRefreshedClaim keeps the original claimedAt when an
existing claim is in the store, sets claimedAt to now when none is,
always sets claimExpiresAt to now plus the duration, and performs no
store mutation. -/
theorem prepareRefreshedClaim_preserves_origin (store : ClaimMap) (now : Timestamp)
    (goalId workerId : String) (durationMs : Int) :
    (∀ c, ClaimMap.get store goalId = some c →
      (GoalClaimPolicy.prepareRefreshedClaim store now goalId workerId
        durationMs).1.claimedAt = c.claimedAt)
    ∧ (ClaimMap.get store goalId = none →
      (GoalClaimPolicy.prepareRefreshedClaim store now goalId workerId
        durationMs).1.claimedAt = now)
    ∧ (GoalClaimPolicy.prepareRefreshedClaim store now goalId workerId
        durationMs).1.claimExpiresAt = now + durationMs
    ∧ (GoalClaimPolicy.prepareRefreshedClaim store now goalId workerId
        durationMs).2 = store := by
  refine ⟨?_, ?_, rfl, rfl⟩
  · intro c hc
    simp [GoalClaimPolicy.prepareRefreshedClaim, hc]
  · intro hc
    simp [GoalClaimPolicy.prepareRefreshedClaim, hc]

/-- Witness for C6: with an existing claim created at 50, the
refreshed claim keeps claimedAt 50 and expires at 100 + 30; with an
empty store, claimedAt is now = 100. -/
theorem prepareRefreshedClaim_preserves_origin_witness :
    (GoalClaimPolicy.prepareRefreshedClaim
        [("g1", { goalId := "g1", claimedBy := "worker-a", claimedAt := 50,
                  claimExpiresAt := 90 })] 100 "g1" "worker-a" 30).1.claimedAt = 50
    ∧ (GoalClaimPolicy.prepareRefreshedClaim [] 100 "g1" "worker-a" 30).1.claimedAt
        = 100
    ∧ (GoalClaimPolicy.prepareRefreshedClaim
        [("g1", { goalId := "g1", claimedBy := "worker-a", claimedAt := 50,
                  claimExpiresAt := 90 })] 100 "g1" "worker-a" 30).1.claimExpiresAt
        = 130 := by
  have h1 := prepareRefreshedClaim_preserves_origin
    [("g1", { goalId := "g1", claimedBy := "worker-a", claimedAt := 50,
              claimExpiresAt := 90 })] 100 "g1" "worker-a" 30
  have h2 := prepareRefreshedClaim_preserves_origin ([] : ClaimMap) 100 "g1" "worker-a" 30
  refine ⟨h1.1 { goalId := "g1", claimedBy := "worker-a", claimedAt := 50,
                 claimExpiresAt := 90 } (by decide), h2.2.1 (by decide), ?_⟩
  have h3 := h1.2.2.1
  simpa using h3

/-- C9: prepareRefreshedClaim and refreshClaim perform no ownership
check: with an active claim held by A in the store and B different
from A, prepareRefreshedClaim for B returns a claim owned by B that
preserves the claimedAt of the claim of A, and refreshClaim
overwrites the stored claim with this claim owned by B. -/
theorem prepareRefreshedClaim_ignores_ownership (store : ClaimMap) (now : Timestamp)
    (goalId A B : String) (durationMs : Int) (c : GoalClaim)
    (hc : ClaimMap.get store goalId = some c) (hA : c.claimedBy = A)
    (hactive : now < c.claimExpiresAt) (hAB : A ≠ B) :
    (GoalClaimPolicy.prepareRefreshedClaim store now goalId B durationMs).1.claimedBy
      = B
    ∧ (GoalClaimPolicy.prepareRefreshedClaim store now goalId B
        durationMs).1.claimedAt = c.claimedAt
    ∧ (GoalClaimPolicy.refreshClaim store now goalId B durationMs).2
      = ClaimMap.set store
          (GoalClaimPolicy.prepareRefreshedClaim store now goalId B durationMs).1
    ∧ ClaimMap.get (GoalClaimPolicy.refreshClaim store now goalId B durationMs).2
        goalId
      = some (GoalClaimPolicy.refreshClaim store now goalId B durationMs).1 := by
  refine ⟨rfl, ?_, rfl, ?_⟩
  · simp [GoalClaimPolicy.prepareRefreshedClaim, hc]
  · have hgoal : (GoalClaimPolicy.prepareRefreshedClaim store now goalId B
        durationMs).1.goalId = goalId := rfl
    have := ClaimMap.get_set store
      (GoalClaimPolicy.prepareRefreshedClaim store now goalId B durationMs).1
    rw [hgoal] at this
    exact this

/-- Witness for C9 at a concrete store: worker-a holds an active claim
on g1 created at 50; refreshing for worker-b yields a claim owned by
worker-b with claimedAt 50, and the store afterwards holds that
claim. -/
theorem prepareRefreshedClaim_ignores_ownership_witness :
    (GoalClaimPolicy.prepareRefreshedClaim
        [("g1", { goalId := "g1", claimedBy := "worker-a", claimedAt := 50,
                  claimExpiresAt := 200 })] 100 "g1" "worker-b" 30).1.claimedBy
      = "worker-b"
    ∧ (GoalClaimPolicy.prepareRefreshedClaim
        [("g1", { goalId := "g1", claimedBy := "worker-a", claimedAt := 50,
                  claimExpiresAt := 200 })] 100 "g1" "worker-b" 30).1.claimedAt = 50
    ∧ ClaimMap.get
        (GoalClaimPolicy.refreshClaim
          [("g1", { goalId := "g1", claimedBy := "worker-a", claimedAt := 50,
                    claimExpiresAt := 200 })] 100 "g1" "worker-b" 30).2 "g1"
      = some (GoalClaimPolicy.refreshClaim
          [("g1", { goalId := "g1", claimedBy := "worker-a", claimedAt := 50,
                    claimExpiresAt := 200 })] 100 "g1" "worker-b" 30).1 := by
  have h := prepareRefreshedClaim_ignores_ownership
    [("g1", { goalId := "g1", claimedBy := "worker-a", claimedAt := 50,
              claimExpiresAt := 200 })] 100 "g1" "worker-a" "worker-b" 30
    { goalId := "g1", claimedBy := "worker-a", claimedAt := 50, claimExpiresAt := 200 }
    (by decide) rfl (by decide) (by decide)
  exact ⟨h.1, h.2.1, h.2.2.2⟩

/-- Applying any single event increments the version by exactly 1. -/
theorem Goal.apply_version (s : GoalState) (e : GoalEvent) :
    (Goal.apply s e).version = s.version + 1 := by
  cases e with
  | mk aggregateId version timestamp data => cases data <;> rfl

/-- Folding apply over any start state adds the event count to the
version. -/
theorem Goal.foldl_apply_version (events : List GoalEvent) (s : GoalState) :
    (events.foldl Goal.apply s).version = s.version + events.length := by
  induction events generalizing s with
  | nil => simp
  | cons e rest ih =>
      simp only [List.foldl_cons, List.length_cons, ih (Goal.apply s e),
        Goal.apply_version]
      omega

/-- C3: after applying an ordered event history of N events through
Goal.apply from the empty initial state with version 0, the version
equals N; each single application increments the version by exactly 1,
never decreasing it or skipping a value. -/
theorem version_monotonicity (id : String) (events : List GoalEvent) :
    (Goal.rehydrate id events).version = events.length
    ∧ ∀ (s : GoalState) (e : GoalEvent),
        (Goal.apply s e).version = s.version + 1 := by
  constructor
  · unfold Goal.rehydrate
    rw [Goal.foldl_apply_version]
    simp [GoalState.initial]
  · exact Goal.apply_version

/-- C4: replay is deterministic — rehydrate applied twice to the same
ordered event list yields identical state, and applying the events one
at a time via repeated apply calls from the empty initial state yields
the same state as rehydrate folding them all at once. -/
theorem replay_determinism (id : String) (events : List GoalEvent) :
    Goal.rehydrate id events = Goal.rehydrate id events
    ∧ Goal.applyEach (GoalState.initial id) events = Goal.rehydrate id events := by
  refine ⟨rfl, ?_⟩
  have step : ∀ (l : List GoalEvent) (s : GoalState),
      Goal.applyEach s l = l.foldl Goal.apply s := by
    intro l
    induction l with
    | nil => intro s; rfl
    | cons e rest ih => intro s; simp [Goal.applyEach, List.foldl_cons, ih]
  exact step events (GoalState.initial id)

/-- C5: invoking any transition from a status not listed as a valid
From-status of the transition table fails as an illegal transition
whose message names the actual current status; submitForReview is
valid exactly from doing and blocked. -/
theorem transition_guard_completeness (t : GoalTransition) (state : GoalState) :
    (¬ t.validFrom.contains state.status →
      Goal.guard t state = .error (.illegalTransition t
        (t.messageHead ++ state.status.label ++ " status")))
    ∧ (Goal.guard .submitForReview state = .ok () ↔
      state.status = .doing ∨ state.status = .blocked) := by
  constructor
  · intro h
    cases t <;> cases hs : state.status <;>
      simp_all [Goal.guard, CanSubmitForReviewRule.validate,
        cannotSubmitForReviewInStatus, GoalTransition.validFrom,
        GoalTransition.messageHead, GoalStatus.label]
  · cases hs : state.status <;>
      simp_all [Goal.guard, CanSubmitForReviewRule.validate,
        cannotSubmitForReviewInStatus] <;> decide

/-- Witness for C5: submitForReview from the initial to-do state fails
with a message containing to-do, and submitForReview from a doing
state passes its guard. -/
theorem transition_guard_completeness_witness :
    Goal.guard .submitForReview (GoalState.initial "g1")
      = .error (.illegalTransition .submitForReview
          "Cannot submit goal for review in to-do status")
    ∧ Goal.guard .submitForReview
        { GoalState.initial "g1" with status := .doing } = .ok () := by
  have h1 := transition_guard_completeness .submitForReview (GoalState.initial "g1")
  have h2 := transition_guard_completeness .submitForReview
    { GoalState.initial "g1" with status := .doing }
  exact ⟨h1.1 (by decide), h2.2.mpr (Or.inl rfl)⟩

/-- C2 counterexample: with the claim store empty, a worker who owns
no claim at all on goal_1 still completes the qualified goal
successfully, so the ownership guard of the claim as stated does not
hold — the canClaim gate also lets through callers facing no claim or
an expired claim. -/
theorem complete_without_ownership_counterexample :
    (CompleteGoalCommandHandler.execute
        { viewExists := true
          history :=
            [{ aggregateId := "goal_1", version := 1, timestamp := 0
               data := .added { objective := "obj", successCriteria := []
                                scopeIn := [], scopeOut := [], boundaries := []
                                status := .todo } },
             { aggregateId := "goal_1", version := 2, timestamp := 0
               data := .started .doing none none none },
             { aggregateId := "goal_1", version := 3, timestamp := 0
               data := .submittedForReview .inReview 0 },
             { aggregateId := "goal_1", version := 4, timestamp := 0
               data := .qualified .qualified 0 }]
          now := 0
          workerId := "worker-b"
          claimDurationMs := 1800000
          appendOk := true }
        "goal_1" []).result = .ok "goal_1"
    ∧ ClaimMap.get ([] : ClaimMap) "goal_1" = none := by
  exact ⟨rfl, rfl⟩

/-- C2 amended: every ownership-gated transition entry point — pause,
submitForReview, qualify, complete, reset — fails with
GOAL_CLAIMED_BY_ANOTHER_WORKER carrying the competing claim expiry,
leaving the claim store unchanged and publishing nothing, exactly
when canClaim rejects the caller, that is when another worker holds a
non-expired claim; when any of them succeeds, canClaim allowed the
caller (owner, expired claim, or no claim at all). -/
theorem ownership_gated_claim_validation (env : GoalCommandEnv) (goalId : String)
    (reason : String) (note : Option String) (viewStatus : GoalStatus)
    (store : ClaimMap) (hview : env.viewExists = true) :
    (∀ c, GoalClaimPolicy.canClaim store env.now goalId env.workerId = .rejected c →
      ClaimMap.get store goalId = some c ∧ env.now < c.claimExpiresAt
      ∧ c.claimedBy ≠ env.workerId)
    ∧ (∀ c, GoalClaimPolicy.canClaim store env.now goalId env.workerId = .rejected c →
      ((PauseGoalCommandHandler.execute env goalId reason note store).result
          = .error (.goalClaimedByAnotherWorker c.claimExpiresAt)
        ∧ (PauseGoalCommandHandler.execute env goalId reason note store).store = store
        ∧ (PauseGoalCommandHandler.execute env goalId reason note store).published = [])
      ∧ ((ReviewGoalController.handle env goalId store).result
          = .error (.goalClaimedByAnotherWorker c.claimExpiresAt)
        ∧ (ReviewGoalController.handle env goalId store).store = store
        ∧ (ReviewGoalController.handle env goalId store).published = [])
      ∧ ((QualifyGoalController.handle env goalId viewStatus store).result
          = .error (.goalClaimedByAnotherWorker c.claimExpiresAt)
        ∧ (QualifyGoalController.handle env goalId viewStatus store).store = store
        ∧ (QualifyGoalController.handle env goalId viewStatus store).published = [])
      ∧ ((CompleteGoalCommandHandler.execute env goalId store).result
          = .error (.goalClaimedByAnotherWorker c.claimExpiresAt)
        ∧ (CompleteGoalCommandHandler.execute env goalId store).store = store
        ∧ (CompleteGoalCommandHandler.execute env goalId store).published = [])
      ∧ ((ResetGoalCommandHandler.execute env goalId store).result
          = .error (.goalClaimedByAnotherWorker c.claimExpiresAt)
        ∧ (ResetGoalCommandHandler.execute env goalId store).store = store
        ∧ (ResetGoalCommandHandler.execute env goalId store).published = []))
    ∧ ((∀ g, (PauseGoalCommandHandler.execute env goalId reason note store).result
          = .ok g →
        GoalClaimPolicy.canClaim store env.now goalId env.workerId = .allowed)
      ∧ (∀ g, (ReviewGoalController.handle env goalId store).result = .ok g →
        GoalClaimPolicy.canClaim store env.now goalId env.workerId = .allowed)
      ∧ (∀ g, (QualifyGoalController.handle env goalId viewStatus store).result
          = .ok g →
        GoalClaimPolicy.canClaim store env.now goalId env.workerId = .allowed)
      ∧ (∀ g, (CompleteGoalCommandHandler.execute env goalId store).result = .ok g →
        GoalClaimPolicy.canClaim store env.now goalId env.workerId = .allowed)
      ∧ (∀ g, (ResetGoalCommandHandler.execute env goalId store).result = .ok g →
        GoalClaimPolicy.canClaim store env.now goalId env.workerId = .allowed)) := by
  have gate : ∀ c,
      GoalClaimPolicy.canClaim store env.now goalId env.workerId = .rejected c →
      ((PauseGoalCommandHandler.execute env goalId reason note store).result
          = .error (.goalClaimedByAnotherWorker c.claimExpiresAt)
        ∧ (PauseGoalCommandHandler.execute env goalId reason note store).store = store
        ∧ (PauseGoalCommandHandler.execute env goalId reason note store).published = [])
      ∧ ((ReviewGoalController.handle env goalId store).result
          = .error (.goalClaimedByAnotherWorker c.claimExpiresAt)
        ∧ (ReviewGoalController.handle env goalId store).store = store
        ∧ (ReviewGoalController.handle env goalId store).published = [])
      ∧ ((QualifyGoalController.handle env goalId viewStatus store).result
          = .error (.goalClaimedByAnotherWorker c.claimExpiresAt)
        ∧ (QualifyGoalController.handle env goalId viewStatus store).store = store
        ∧ (QualifyGoalController.handle env goalId viewStatus store).published = [])
      ∧ ((CompleteGoalCommandHandler.execute env goalId store).result
          = .error (.goalClaimedByAnotherWorker c.claimExpiresAt)
        ∧ (CompleteGoalCommandHandler.execute env goalId store).store = store
        ∧ (CompleteGoalCommandHandler.execute env goalId store).published = [])
      ∧ ((ResetGoalCommandHandler.execute env goalId store).result
          = .error (.goalClaimedByAnotherWorker c.claimExpiresAt)
        ∧ (ResetGoalCommandHandler.execute env goalId store).store = store
        ∧ (ResetGoalCommandHandler.execute env goalId store).published = []) := by
    intro c hcc
    refine ⟨?_, ?_, ?_, ?_, ?_⟩
    · simp [PauseGoalCommandHandler.execute, hview, hcc]
    · simp [ReviewGoalController.handle, hcc]
    · simp [QualifyGoalController.handle, hcc]
    · simp [CompleteGoalCommandHandler.execute, hview, hcc]
    · simp [ResetGoalCommandHandler.execute, hview, hcc]
  refine ⟨?_, gate, ?_⟩
  · intro c hcc
    unfold GoalClaimPolicy.canClaim at hcc
    cases hg : ClaimMap.get store goalId with
    | none => simp [hg] at hcc
    | some c0 =>
        rw [hg] at hcc
        by_cases hexp : c0.claimExpiresAt ≤ env.now
        · simp [hexp] at hcc
        · by_cases hown : c0.claimedBy = env.workerId
          · simp [hexp, hown] at hcc
          · have hb : (c0.claimedBy == env.workerId) = false :=
              beq_eq_false_iff_ne.mpr hown
            simp [hexp, hb] at hcc
            subst hcc
            exact ⟨rfl, lt_of_not_le hexp, hown⟩
  · have success : ∀ (result : Except GoalCommandError String),
        (∀ c, GoalClaimPolicy.canClaim store env.now goalId env.workerId
            = .rejected c →
          result = .error (.goalClaimedByAnotherWorker c.claimExpiresAt)) →
        ∀ g, result = .ok g →
        GoalClaimPolicy.canClaim store env.now goalId env.workerId = .allowed := by
      intro result hres g hok
      cases hcc : GoalClaimPolicy.canClaim store env.now goalId env.workerId with
      | allowed => rfl
      | rejected c =>
          rw [hres c hcc] at hok
          cases hok
    exact ⟨success _ (fun c hcc => ((gate c hcc).1).1),
      success _ (fun c hcc => ((gate c hcc).2.1).1),
      success _ (fun c hcc => ((gate c hcc).2.2.1).1),
      success _ (fun c hcc => ((gate c hcc).2.2.2.1).1),
      success _ (fun c hcc => ((gate c hcc).2.2.2.2).1)⟩

/-- Witness for C2 at a concrete input: worker-a holds a claim on g1
expiring at 200; at now = 100, pause, submitForReview, qualify,
complete and reset invoked by worker-b all fail with the competing
expiry 200, and the complete invocation leaves the store unchanged. -/
theorem ownership_gated_claim_validation_witness :
    (PauseGoalCommandHandler.execute
        { viewExists := true, history := [], now := 100, workerId := "worker-b"
          claimDurationMs := 1800000, appendOk := true }
        "g1" "Other" none
        [("g1", { goalId := "g1", claimedBy := "worker-a", claimedAt := 0,
                  claimExpiresAt := 200 })]).result
      = .error (.goalClaimedByAnotherWorker 200)
    ∧ (ReviewGoalController.handle
        { viewExists := true, history := [], now := 100, workerId := "worker-b"
          claimDurationMs := 1800000, appendOk := true }
        "g1"
        [("g1", { goalId := "g1", claimedBy := "worker-a", claimedAt := 0,
                  claimExpiresAt := 200 })]).result
      = .error (.goalClaimedByAnotherWorker 200)
    ∧ (QualifyGoalController.handle
        { viewExists := true, history := [], now := 100, workerId := "worker-b"
          claimDurationMs := 1800000, appendOk := true }
        "g1" .inReview
        [("g1", { goalId := "g1", claimedBy := "worker-a", claimedAt := 0,
                  claimExpiresAt := 200 })]).result
      = .error (.goalClaimedByAnotherWorker 200)
    ∧ (CompleteGoalCommandHandler.execute
        { viewExists := true, history := [], now := 100, workerId := "worker-b"
          claimDurationMs := 1800000, appendOk := true }
        "g1"
        [("g1", { goalId := "g1", claimedBy := "worker-a", claimedAt := 0,
                  claimExpiresAt := 200 })]).result
      = .error (.goalClaimedByAnotherWorker 200)
    ∧ (ResetGoalCommandHandler.execute
        { viewExists := true, history := [], now := 100, workerId := "worker-b"
          claimDurationMs := 1800000, appendOk := true }
        "g1"
        [("g1", { goalId := "g1", claimedBy := "worker-a", claimedAt := 0,
                  claimExpiresAt := 200 })]).result
      = .error (.goalClaimedByAnotherWorker 200)
    ∧ (CompleteGoalCommandHandler.execute
        { viewExists := true, history := [], now := 100, workerId := "worker-b"
          claimDurationMs := 1800000, appendOk := true }
        "g1"
        [("g1", { goalId := "g1", claimedBy := "worker-a", claimedAt := 0,
                  claimExpiresAt := 200 })]).store
      = [("g1", { goalId := "g1", claimedBy := "worker-a", claimedAt := 0,
                  claimExpiresAt := 200 })] := by
  have h := ownership_gated_claim_validation
    { viewExists := true, history := [], now := 100, workerId := "worker-b"
      claimDurationMs := 1800000, appendOk := true }
    "g1" "Other" none .inReview
    [("g1", { goalId := "g1", claimedBy := "worker-a", claimedAt := 0,
              claimExpiresAt := 200 })] rfl
  have hc := h.2.1
    { goalId := "g1", claimedBy := "worker-a", claimedAt := 0, claimExpiresAt := 200 }
    (by decide)
  exact ⟨hc.1.1, hc.2.1.1, hc.2.2.1.1, hc.2.2.2.1.1, hc.2.2.2.2.1, hc.2.2.2.1.2.1⟩

/-- C7: in each of the four command handlers the claim-store mutation
happens only after the event append succeeded and the publish after
both, so an invocation whose append fails leaves the claim store
unchanged and publishes nothing. -/
theorem append_failure_atomicity (env : GoalCommandEnv) (goalId : String)
    (note : Option String) (store : ClaimMap) (hfail : env.appendOk = false) :
    ((StartGoalCommandHandler.execute env goalId store).store = store
      ∧ (StartGoalCommandHandler.execute env goalId store).published = [])
    ∧ ((ResumeGoalCommandHandler.execute env goalId note store).store = store
      ∧ (ResumeGoalCommandHandler.execute env goalId note store).published = [])
    ∧ ((CompleteGoalCommandHandler.execute env goalId store).store = store
      ∧ (CompleteGoalCommandHandler.execute env goalId store).published = [])
    ∧ ((ResetGoalCommandHandler.execute env goalId store).store = store
      ∧ (ResetGoalCommandHandler.execute env goalId store).published = []) := by
  refine ⟨⟨?_, ?_⟩, ⟨?_, ?_⟩, ⟨?_, ?_⟩, ⟨?_, ?_⟩⟩ <;>
  · simp only [StartGoalCommandHandler.execute, ResumeGoalCommandHandler.execute,
      CompleteGoalCommandHandler.execute, ResetGoalCommandHandler.execute,
      GoalClaimPolicy.prepareRefreshedClaim, hfail]
    repeat' split
    all_goals first | rfl | simp_all

/-- Witness for C7: a start invocation whose append fails, against a
goal in to-do with an empty claim store, leaves the store empty and
publishes nothing. -/
theorem append_failure_atomicity_witness :
    (StartGoalCommandHandler.execute
        { viewExists := true
          history :=
            [{ aggregateId := "g1", version := 1, timestamp := 0
               data := .added { objective := "obj", successCriteria := []
                                scopeIn := [], scopeOut := [], boundaries := []
                                status := .todo } }]
          now := 100, workerId := "worker-a", claimDurationMs := 1800000
          appendOk := false }
        "g1" []).store = []
    ∧ (StartGoalCommandHandler.execute
        { viewExists := true
          history :=
            [{ aggregateId := "g1", version := 1, timestamp := 0
               data := .added { objective := "obj", successCriteria := []
                                scopeIn := [], scopeOut := [], boundaries := []
                                status := .todo } }]
          now := 100, workerId := "worker-a", claimDurationMs := 1800000
          appendOk := false }
        "g1" []).published = [] := by
  have h := append_failure_atomicity
    { viewExists := true
      history :=
        [{ aggregateId := "g1", version := 1, timestamp := 0
           data := .added { objective := "obj", successCriteria := []
                            scopeIn := [], scopeOut := [], boundaries := []
                            status := .todo } }]
      now := 100, workerId := "worker-a", claimDurationMs := 1800000
      appendOk := false }
    "g1" none [] rfl
  exact h.1

/-- C8: applying a GoalQualifiedEvent to the read model updates
exactly the rows whose goalId equals the event aggregateId — setting
status from the payload, clearing the three claim columns, setting
version and updatedAt from the event — leaving every other column of
those rows and every other row unchanged. -/
theorem qualified_projection_targeted_update (table : GoalViewTable)
    (event : GoalQualifiedEvent) :
    List.Forall₂ (fun row rowAfter =>
      if row.goalId = event.aggregateId then
        rowAfter.status = event.status
        ∧ rowAfter.claimedBy = none
        ∧ rowAfter.claimedAt = none
        ∧ rowAfter.claimExpiresAt = none
        ∧ rowAfter.version = event.version
        ∧ rowAfter.updatedAt = event.timestamp
        ∧ rowAfter.goalId = row.goalId
        ∧ rowAfter.objective = row.objective
        ∧ rowAfter.successCriteria = row.successCriteria
        ∧ rowAfter.scopeIn = row.scopeIn
        ∧ rowAfter.scopeOut = row.scopeOut
        ∧ rowAfter.boundaries = row.boundaries
        ∧ rowAfter.createdAt = row.createdAt
        ∧ rowAfter.progress = row.progress
        ∧ rowAfter.note = row.note
        ∧ rowAfter.nextGoalId = row.nextGoalId
      else rowAfter = row)
      table (SqliteGoalQualifiedProjector.applyGoalQualified table event) := by
  induction table with
  | nil =>
      simp only [SqliteGoalQualifiedProjector.applyGoalQualified, List.map_nil]
      exact List.Forall₂.nil
  | cons row rest ih =>
      simp only [SqliteGoalQualifiedProjector.applyGoalQualified, List.map_cons]
      refine List.Forall₂.cons ?_ ih
      by_cases h : row.goalId = event.aggregateId
      · simp [h]
      · simp [h, beq_eq_false_iff_ne.mpr h]

end Jumbo
